import Mathlib

/-!
Formal model of the ChainChat conversation service (`chainchat/chat.py`).

The Python class `ChatService` is embedded as a pure state-transition system:
the mutable attributes of the service object become the fields of `ChatState`,
and each public method becomes a function from the old state (plus an
environment record carrying the outcomes of external calls: the language
model, the embedding provider, the clock, and the UUID generator) to a result
dictionary and the new state.  Python dictionaries returned to the caller are
modelled as association lists `List (String × V)`; an exception raised by an
external call is an `Except.error` in the environment, and the `try/except`
blocks of the source are modelled by matching on those outcomes.  Library
calls made by the source (hashlib.md5, langchain text splitter and memory
classes) are modelled by faithful Lean implementations of the library
behaviour, noted at each definition.
-/

namespace ChainChat

/-! ### String utilities (List Char based, so everything reduces in the kernel) -/

def startsWithL : List Char → List Char → Bool
  | [], _ => true
  | _ :: _, [] => false
  | a :: as, b :: bs => a == b && startsWithL as bs

/-- Substring containment, the model of Python `pat in text` on strings. -/
def containsSub : List Char → List Char → Bool
  | [], p => startsWithL p []
  | c :: ts, p => startsWithL p (c :: ts) || containsSub ts p

def strContains (s pat : String) : Bool := containsSub s.data pat.data

/-- Model of Python `str.lower()` (character-wise lowercasing). -/
def lowerStr (s : String) : String := (s.data.map Char.toLower).asString

/-- Model of Python `str.strip()`: drop leading and trailing whitespace. -/
def trimL (l : List Char) : List Char :=
  ((l.dropWhile Char.isWhitespace).reverse.dropWhile Char.isWhitespace).reverse

def trimStr (s : String) : String := (trimL s.data).asString

/-- Model of Python `str.split()` with no argument: split on whitespace runs,
dropping empty pieces. -/
def splitWsAux : List Char → List Char → List (List Char)
  | [], acc => if acc.isEmpty then [] else [acc.reverse]
  | c :: cs, acc =>
      if c.isWhitespace then
        (if acc.isEmpty then splitWsAux cs [] else acc.reverse :: splitWsAux cs [])
      else splitWsAux cs (c :: acc)

def splitWs (s : String) : List String := (splitWsAux s.data []).map List.asString

def digitChar (n : Nat) : Char := Char.ofNat (48 + n)

def natToStrAux : Nat → Nat → List Char
  | 0, _ => []
  | fuel + 1, n => if n < 10 then [digitChar n] else natToStrAux fuel (n / 10) ++ [digitChar (n % 10)]

/-- Decimal rendering of a natural number (model of Python str(int)). -/
def natToStr (n : Nat) : String := (natToStrAux (n + 1) n).asString

def pow2 : Nat → Nat
  | 0 => 1
  | n + 1 => 2 * pow2 n

/-! ### MD5 (model of `hashlib.md5(text.encode()).hexdigest()`, chat.py line 64)

A direct implementation of RFC 1321 over the UTF-8 byte sequence of the text,
producing the lowercase hex digest. -/

def mask32 : Nat := 4294967295

def not32 (x : Nat) : Nat := Nat.xor mask32 x

def rotl32 (x r : Nat) : Nat :=
  ((x * pow2 r) % 4294967296) + (x / pow2 (32 - r))

/-- UTF-8 encoding of one character (model of Python `str.encode()`). -/
def utf8Bytes (c : Char) : List Nat :=
  let n := c.toNat
  if n < 128 then [n]
  else if n < 2048 then [192 + n / 64, 128 + n % 64]
  else if n < 65536 then [224 + n / 4096, 128 + (n / 64) % 64, 128 + n % 64]
  else [240 + n / 262144, 128 + (n / 4096) % 64, 128 + (n / 64) % 64, 128 + n % 64]

def strBytes (s : String) : List Nat := s.data.flatMap utf8Bytes

def md5K : List Nat :=
  [0xd76aa478, 0xe8c7b756, 0x242070db, 0xc1bdceee,
   0xf57c0faf, 0x4787c62a, 0xa8304613, 0xfd469501,
   0x698098d8, 0x8b44f7af, 0xffff5bb1, 0x895cd7be,
   0x6b901122, 0xfd987193, 0xa679438e, 0x49b40821,
   0xf61e2562, 0xc040b340, 0x265e5a51, 0xe9b6c7aa,
   0xd62f105d, 0x02441453, 0xd8a1e681, 0xe7d3fbc8,
   0x21e1cde6, 0xc33707d6, 0xf4d50d87, 0x455a14ed,
   0xa9e3e905, 0xfcefa3f8, 0x676f02d9, 0x8d2a4c8a,
   0xfffa3942, 0x8771f681, 0x6d9d6122, 0xfde5380c,
   0xa4beea44, 0x4bdecfa9, 0xf6bb4b60, 0xbebfbc70,
   0x289b7ec6, 0xeaa127fa, 0xd4ef3085, 0x04881d05,
   0xd9d4d039, 0xe6db99e5, 0x1fa27cf8, 0xc4ac5665,
   0xf4292244, 0x432aff97, 0xab9423a7, 0xfc93a039,
   0x655b59c3, 0x8f0ccc92, 0xffeff47d, 0x85845dd1,
   0x6fa87e4f, 0xfe2ce6e0, 0xa3014314, 0x4e0811a1,
   0xf7537e82, 0xbd3af235, 0x2ad7d2bb, 0xeb86d391]

def md5S : List Nat :=
  [7, 12, 17, 22, 7, 12, 17, 22, 7, 12, 17, 22, 7, 12, 17, 22,
   5, 9, 14, 20, 5, 9, 14, 20, 5, 9, 14, 20, 5, 9, 14, 20,
   4, 11, 16, 23, 4, 11, 16, 23, 4, 11, 16, 23, 4, 11, 16, 23,
   6, 10, 15, 21, 6, 10, 15, 21, 6, 10, 15, 21, 6, 10, 15, 21]

def md5F (i b c d : Nat) : Nat :=
  if i < 16 then Nat.lor (Nat.land b c) (Nat.land (not32 b) d)
  else if i < 32 then Nat.lor (Nat.land d b) (Nat.land (not32 d) c)
  else if i < 48 then Nat.xor b (Nat.xor c d)
  else Nat.xor c (Nat.lor b (not32 d))

def md5G (i : Nat) : Nat :=
  if i < 16 then i
  else if i < 32 then (5 * i + 1) % 16
  else if i < 48 then (3 * i + 5) % 16
  else (7 * i) % 16

def md5Pad (msg : List Nat) : List Nat :=
  let L := msg.length
  let zeros := (120 - ((L + 1) % 64)) % 64
  msg ++ [128] ++ List.replicate zeros 0 ++
    (List.range 8).map (fun j => ((8 * L) / pow2 (8 * j)) % 256)

def chunk64Aux : Nat → List Nat → List (List Nat)
  | 0, _ => []
  | _, [] => []
  | fuel + 1, l => l.take 64 :: chunk64Aux fuel (l.drop 64)

def bytesToWords : List Nat → List Nat
  | b0 :: b1 :: b2 :: b3 :: rest => (b0 + 256 * b1 + 65536 * b2 + 16777216 * b3) :: bytesToWords rest
  | _ => []

def md5Step (M : List Nat) (st : Nat × Nat × Nat × Nat) (i : Nat) : Nat × Nat × Nat × Nat :=
  let (a, b, c, d) := st
  let f := (md5F i b c d + a + md5K.getD i 0 + M.getD (md5G i) 0) % 4294967296
  (d, (b + rotl32 f (md5S.getD i 0)) % 4294967296, b, c)

def md5Block (st : Nat × Nat × Nat × Nat) (block : List Nat) : Nat × Nat × Nat × Nat :=
  let M := bytesToWords block
  let (a, b, c, d) := (List.range 64).foldl (md5Step M) st
  let (a0, b0, c0, d0) := st
  ((a0 + a) % 4294967296, (b0 + b) % 4294967296, (c0 + c) % 4294967296, (d0 + d) % 4294967296)

def hexDigit (n : Nat) : Char := if n < 10 then Char.ofNat (48 + n) else Char.ofNat (87 + n)

def byteHexChars (b : Nat) : List Char := [hexDigit (b / 16), hexDigit (b % 16)]

def wordLEHexChars (w : Nat) : List Char :=
  byteHexChars (w % 256) ++ byteHexChars ((w / 256) % 256) ++
    byteHexChars ((w / 65536) % 256) ++ byteHexChars ((w / 16777216) % 256)

/-- MD5 hex digest of a string, the content hash used by add_document
(chat.py line 64). -/
def md5hex (s : String) : String :=
  let msg := md5Pad (strBytes s)
  let blocks := chunk64Aux (msg.length + 1) msg
  let (a, b, c, d) := blocks.foldl md5Block (0x67452301, 0xefcdab89, 0x98badcfe, 0x10325476)
  (wordLEHexChars a ++ wordLEHexChars b ++ wordLEHexChars c ++ wordLEHexChars d).asString

/-! ### Chunker

Model of langchain `RecursiveCharacterTextSplitter` as configured in
`ChatService.__init__` (chat.py lines 53-57): chunk_size and chunk_overlap
from config.py (defaults 1000 and 200), separators
`["\n\n", "\n", ". ", " ", ""]`, keep_separator = True (the class default),
length measured in characters, whitespace stripped from merged chunks. -/

/-- One step of the splitting recursion cannot be reached without a pattern
occurrence, so the fuel (the separator-list length plus one at the top call)
is never exhausted; the fuel-zero fallbacks below are unreachable. -/
def splitOnAuxL (pat : List Char) : Nat → List Char → List Char → List (List Char)
  | _, [], acc => [acc.reverse]
  | 0, t, acc => [acc.reverse ++ t]
  | fuel + 1, c :: cs, acc =>
      if startsWithL pat (c :: cs) && !pat.isEmpty then
        acc.reverse :: splitOnAuxL pat fuel ((c :: cs).drop pat.length) []
      else splitOnAuxL pat fuel cs (c :: acc)

/-- Split a text at every occurrence of a literal pattern (the model of
`re.split` on an escaped separator). -/
def splitOnL (pat text : List Char) : List (List Char) :=
  splitOnAuxL pat (text.length + 1) text []

/-- Model of `_split_text_with_regex(text, separator, keep_separator=True)`:
pieces keep the separator attached to the following piece, empty pieces are
dropped; the empty separator splits into single characters. -/
def splitKeepSep (text : List Char) (sep : List Char) : List (List Char) :=
  let splits :=
    if sep.isEmpty then text.map (fun c => [c])
    else
      match splitOnL sep text with
      | [] => []
      | p :: ps => p :: ps.map (fun q => sep ++ q)
  splits.filter (fun s => !s.isEmpty)

/-- Separator selection loop of `_split_text`: the first separator that is
empty or occurs in the text is chosen together with the remaining separator
list; if none matches, the last separator is chosen with no remainder. -/
def chooseSep (text : List Char) (dflt : String) : List String → String × List String
  | [] => (dflt, [])
  | s :: rest =>
      if s = "" then ("", [])
      else if containsSub text s.toList then (s, rest)
      else chooseSep text dflt rest

/-- Model of `_join_docs`: join with the separator, strip whitespace, and
drop the chunk when the result is empty. -/
def joinDocs (docs : List (List Char)) (sep : List Char) : Option (List Char) :=
  let t := trimL (List.intercalate sep docs)
  if t.isEmpty then none else some t

def joinDocsList (docs : List (List Char)) (sep : List Char) : List (List Char) :=
  match joinDocs docs sep with
  | some d => [d]
  | none => []

/-- The pop-from-front while loop of `_merge_splits`, entered only with a
non-empty current document list. -/
def shrinkWhile (cs ov sepL lenD : Nat) : List (List Char) → Nat → (List (List Char) × Nat)
  | [], total => ([], total)
  | d :: ds, total =>
      if total > ov || (total + lenD + sepL > cs && total > 0) then
        shrinkWhile cs ov sepL lenD ds (total - (d.length + (if ds.isEmpty then 0 else sepL)))
      else (d :: ds, total)

/-- The main accumulation loop of `_merge_splits`. -/
def mergeLoop (cs ov sepL : Nat) (sep : List Char) :
    List (List Char) → List (List Char) → Nat → List (List Char) → List (List Char)
  | [], cur, _, docs => docs ++ joinDocsList cur sep
  | d :: rest, cur, total, docs =>
      let lenD := d.length
      let (cur2, total2, docs2) :=
        if total + lenD + (if cur.isEmpty then 0 else sepL) > cs then
          if cur.isEmpty then (cur, total, docs)
          else
            let docsNew := docs ++ joinDocsList cur sep
            let (curNew, totalNew) := shrinkWhile cs ov sepL lenD cur total
            (curNew, totalNew, docsNew)
        else (cur, total, docs)
      mergeLoop cs ov sepL sep rest (cur2 ++ [d])
        (total2 + lenD + (if cur2.isEmpty then 0 else sepL)) docs2

def mergeSplits (cs ov : Nat) (splits : List (List Char)) (sep : List Char) : List (List Char) :=
  mergeLoop cs ov sep.length sep splits [] 0 []

/-- The per-split loop of `_split_text`: runs of small splits are merged,
oversized splits are replaced by their recursive splitting (precomputed in
`splitTextAux` below and passed here as `Sum.inr` blocks). -/
def assembleAux (cs ov : Nat) : List (Sum (List Char) (List (List Char))) → List (List Char) → List (List Char)
  | [], good => if good.isEmpty then [] else mergeSplits cs ov good []
  | Sum.inl s :: rest, good => assembleAux cs ov rest (good ++ [s])
  | Sum.inr blk :: rest, good =>
      (if good.isEmpty then [] else mergeSplits cs ov good []) ++ blk ++ assembleAux cs ov rest []

/-- Model of `RecursiveCharacterTextSplitter._split_text`.  The recursion
descends into a strict suffix of the separator list, so a fuel of the
separator-list length plus one is never exhausted. -/
def splitTextAux (cs ov : Nat) : Nat → List Char → List String → List (List Char)
  | 0, text, _ => [text]
  | fuel + 1, text, seps =>
      let (sep, newSeps) := chooseSep text (seps.getLastD "") seps
      let splits := splitKeepSep text sep.toList
      let pieces : List (Sum (List Char) (List (List Char))) := splits.map (fun s =>
        if s.length < cs then Sum.inl s
        else Sum.inr (if newSeps.isEmpty then [s] else splitTextAux cs ov fuel s newSeps))
      assembleAux cs ov pieces []

def splitTextWith (cs ov : Nat) (seps : List String) (text : String) : List String :=
  (splitTextAux cs ov (seps.length + 1) text.toList seps).map List.asString

/-- Model of `self.text_splitter.split_text(text)` with the configuration of
chat.py lines 53-57 and config.py (chunk_size 1000, chunk_overlap 200). -/
def splitText (text : String) : List String :=
  splitTextWith 1000 200 ["\n\n", "\n", ". ", " ", ""] text

/-! ### Data model -/

/-- Which embedding implementation object `self.embeddings` currently holds:
`OpenAIEmbeddings` (the remote provider) or one of the two
`SentenceTransformerEmbeddings` local fallbacks (chat.py lines 26-43 and
363-375). -/
inductive EmbImpl where
  | openai
  | stMultilingual
  | stBasic
deriving DecidableEq, Repr

/-- A langchain `Document` as built in add_document (chat.py lines 80-90):
one chunk of text plus its metadata fields. -/
structure Doc where
  page_content : String
  source : String
  chunk_id : Nat
  document_id : String
  added_at : String
deriving DecidableEq, Repr

/-- The per-document metadata recorded in `self.document_sources`
(chat.py lines 95-100). -/
structure DocMeta where
  filename : String
  chunks : Nat
  added_at : String
  character_count : Nat
deriving DecidableEq, Repr

/-- The FAISS vector store: `FAISS.from_documents(documents, embeddings)`
determines the index by the chunk list it was built from and the embedding
object bound into it at construction (chat.py lines 351-353 and 378-380);
`as_retriever()` later embeds queries with that bound object. -/
structure VectorStore where
  docs : List Doc
  emb : EmbImpl
deriving DecidableEq, Repr

/-- A transcript message; `role` is the lowercased langchain message class
name (`humanmessage` or `aimessage`), the form reported by
get_session_history (chat.py line 335). -/
structure Message where
  role : String
  content : String
deriving DecidableEq, Repr

/-- A `ConversationBufferWindowMemory` object.  `ctorId` models Python
object identity: every construction of a memory object yields a fresh id.
`output_key` is the constructor argument (`None` when not passed, `"answer"`
for the RAG-shaped memory of chat.py lines 177-182). -/
structure Memory where
  ctorId : Nat
  memory_key : String
  output_key : Option String
  k : Nat
  messages : List Message
deriving DecidableEq, Repr

/-- One entry of `self.sessions` (chat.py lines 126-130). -/
structure Session where
  memory : Option Memory
  created_at : String
  message_count : Nat
  last_activity : Option String
deriving DecidableEq, Repr

/-- The mutable attributes of the `ChatService` object.  `nextCtorId` is the
supply of fresh object identities for memory constructions. -/
structure ChatState where
  embeddings : EmbImpl
  embedding_type : String
  documents : List Doc
  vector_store : Option VectorStore
  document_sources : List (String × DocMeta)
  sessions : List (String × Session)
  nextCtorId : Nat
deriving DecidableEq, Repr

/-- A deduplicated source citation built in the RAG branch of ask
(chat.py lines 256-268). -/
structure SourceInfo where
  filename : String
  chunk_id : Nat
  content_preview : String
deriving DecidableEq, Repr

/-- Values of the result dictionaries returned by the public operations. -/
inductive V where
  | s (v : String)
  | b (v : Bool)
  | n (v : Nat)
  | srcList (v : List SourceInfo)
  | metaMap (v : List (String × DocMeta))
  | msgList (v : List Message)
deriving DecidableEq, Repr

/-- A Python result dictionary: an ordered association list. -/
abbrev PyDict := List (String × V)

/-! ### Environments

Outcomes of the external calls a method makes, supplied as inputs so the
methods are pure functions of state and environment. -/

/-- Outcomes of the external calls made by `_rebuild_vector_store`:
the first `FAISS.from_documents` attempt, whether the multilingual
sentence-transformer model loads (chat.py lines 363-374), and the retried
`FAISS.from_documents` attempt after the fallback. -/
structure RebuildEnv where
  firstAttempt : Except String Unit
  multilingualOk : Bool
  localAttempt : Except String Unit
deriving Repr

/-- A successful model invocation: the answer text and, for the RAG chain,
the retrieved source documents. -/
structure LLMResponse where
  answer : String
  source_documents : List Doc
deriving Repr

/-- Environment of one `ask` call: the generated UUID (used when no session
id is supplied), the clock, and the outcome of the model invocation
(`Except.error` models an exception raised during the chain call). -/
structure AskEnv where
  freshId : String
  now : String
  outcome : Except String LLMResponse
deriving Repr

/-- Environment of `__init__`: whether the `OpenAIEmbeddings` constructor
succeeds (chat.py lines 25-29) and whether the multilingual local model
loads (lines 31-42). -/
structure InitEnv where
  openaiOk : Bool
  multilingualOk : Bool
deriving Repr

/-! ### Operations -/

/-- The quota signature test of `_rebuild_vector_store` (chat.py line 356):
a quota indication in the lowercased message or a literal 429. -/
def isQuotaErrorRebuild (e : String) : Bool :=
  strContains (lowerStr e) "quota" || strContains e "429"

/-- The quota signature test of the `ask` exception handler (chat.py lines
286-290): quota, 429, or insufficient_quota. -/
def isQuotaErrorAsk (e : String) : Bool :=
  strContains (lowerStr e) "quota" || strContains e "429" ||
    strContains (lowerStr e) "insufficient_quota"

/-- The local-embeddings selection (chat.py lines 363-374, identical shape
at lines 31-42): try the multilingual model, fall back to the basic one. -/
def pickLocalEmbeddings (multilingualOk : Bool) : EmbImpl :=
  if multilingualOk then EmbImpl.stMultilingual else EmbImpl.stBasic

/-- Model of `_rebuild_vector_store` (chat.py lines 348-383).  Returns the
raised exception message, if any, together with the state after the
mutations performed up to the raise point (Python mutations of `self`
persist when an exception propagates). -/
def rebuild_vector_store (s : ChatState) (env : RebuildEnv) : Option String × ChatState :=
  if s.documents.isEmpty then (none, s)
  else
    match env.firstAttempt with
    | Except.ok _ => (none, { s with vector_store := some { docs := s.documents, emb := s.embeddings } })
    | Except.error e =>
        if isQuotaErrorRebuild e then
          let emb := pickLocalEmbeddings env.multilingualOk
          let s1 := { s with embeddings := emb, embedding_type := "local" }
          match env.localAttempt with
          | Except.ok _ => (none, { s1 with vector_store := some { docs := s1.documents, emb := emb } })
          | Except.error e2 => (some e2, s1)
        else (some e, s)

/-- The Document objects built for one ingested text (chat.py lines 79-90). -/
def chunkDocsFor (text filename now : String) : List Doc :=
  (splitText text).enum.map (fun p =>
    { page_content := p.2, source := filename, chunk_id := p.1,
      document_id := md5hex text, added_at := now })

/-- The metadata entry recorded for one ingested text (chat.py lines 95-100). -/
def docMetaFor (text filename now : String) : DocMeta :=
  { filename := filename, chunks := (splitText text).length, added_at := now,
    character_count := text.length }

/-- Model of `ChatService.add_document` (chat.py lines 59-118).  The whole
body runs inside try/except; the only exception source in the body is the
vector-store rebuild, whose fatal failure is caught at line 113 and turned
into a failure dictionary, keeping all mutations made before the raise. -/
def add_document (s : ChatState) (text filename now : String) (env : RebuildEnv) : PyDict × ChatState :=
  let doc_hash := md5hex text
  match s.document_sources.lookup doc_hash with
  | some _ =>
      ([("success", V.b false),
        ("message", V.s "Document already exists in knowledge base"),
        ("document_id", V.s doc_hash)], s)
  | none =>
      let chunks := splitText text
      let s1 := { s with
        documents := s.documents ++ chunkDocsFor text filename now,
        document_sources := s.document_sources ++ [(doc_hash, docMetaFor text filename now)] }
      match rebuild_vector_store s1 env with
      | (none, s2) =>
          ([("success", V.b true),
            ("message", V.s ("Document processed into " ++ natToStr chunks.length ++ " chunks")),
            ("document_id", V.s doc_hash),
            ("chunks", V.n chunks.length)], s2)
      | (some e, s2) =>
          ([("success", V.b false),
            ("message", V.s ("Error processing document: " ++ e))], s2)

/-- Models `hasattr(memory, "output_key")` on a `ConversationBufferWindowMemory`
instance.  The class inherits the field `output_key` (default None) from
langchain `BaseChatMemory`, so the attribute exists on every instance and
the probe is always true, whichever constructor arguments were used. -/
def memHasOutputKeyAttr (_m : Memory) : Bool := true

/-- The DIRECT-shape memory step of ask (chat.py lines 136-152): when the
session has no memory or its memory has an `output_key` attribute, build a
fresh direct-chat memory, copying the prior messages verbatim.  Returns the
updated session and the next fresh object id. -/
def ensureDirectMemory (sess : Session) (nid : Nat) : Session × Nat :=
  let needNew :=
    match sess.memory with
    | none => true
    | some m => memHasOutputKeyAttr m
  if needNew then
    let msgs :=
      match sess.memory with
      | some m => m.messages
      | none => []
    let direct_memory : Memory :=
      { ctorId := nid, memory_key := "history", output_key := none, k := 5,
        messages := msgs }
    ({ sess with memory := some direct_memory }, nid + 1)
  else (sess, nid)

/-- The RAG-shape memory step of ask (chat.py lines 172-193): when the
session has no memory, or its memory lacks the `output_key` attribute, or
that key is not "answer", build a fresh RAG memory, copying the prior
messages verbatim. -/
def ensureRagMemory (sess : Session) (nid : Nat) : Session × Nat :=
  let needNew :=
    match sess.memory with
    | none => true
    | some m => !(memHasOutputKeyAttr m) || m.output_key != some "answer"
  if needNew then
    let msgs :=
      match sess.memory with
      | some m => m.messages
      | none => []
    let rag_memory : Memory :=
      { ctorId := nid, memory_key := "chat_history", output_key := some "answer", k := 5,
        messages := msgs }
    ({ sess with memory := some rag_memory }, nid + 1)
  else (sess, nid)

def hebrewDocWords : List String := ["הקובץ", "המסמך", "הטקסט", "המידע"]

def englishDocPhrases : List String := ["the file", "the document", "this document"]

def hebrewCannedQuestions : List String := ["תסביר על הקובץ בבקשה", "תן לי סיכום", "מה יש במסמך"]

def apos : String := (Char.ofNat 39).toString

def englishCannedQuestions : List String :=
  ["explain in english", "summarize this", "what" ++ apos ++ "s in this"]

/-- The query-augmentation cascade of the RAG branch (chat.py lines 226-252). -/
def enhanceQuestion (question : String) : String :=
  if hebrewDocWords.any (fun w => strContains question w) then
    "בהתבסס על המסמך שהועלה, " ++ question
  else if strContains question "תסביר" &&
      (strContains question "בעברית" || (splitWs question).length ≤ 3) then
    "תסביר את התוכן של המסמך שהועלה בעברית"
  else if hebrewCannedQuestions.contains (trimStr question) then
    "בהתבסס על המסמך שהועלה, " ++ question
  else if englishDocPhrases.any (fun w => strContains (lowerStr question) w) then
    "Based on the uploaded document, " ++ question
  else if englishCannedQuestions.contains (trimStr (lowerStr question)) then
    "Based on the uploaded document, " ++ question
  else question

/-- Content preview of a retrieved chunk (chat.py lines 261-265). -/
def contentPreview (content : String) : String :=
  if content.length > 200 then (content.data.take 200).asString ++ "..." else content

/-- Source-citation deduplication loop (chat.py lines 256-268). -/
def dedupSources : List Doc → List SourceInfo → List SourceInfo
  | [], acc => acc
  | d :: ds, acc =>
      let si : SourceInfo :=
        { filename := d.source, chunk_id := d.chunk_id,
          content_preview := contentPreview d.page_content }
      if acc.contains si then dedupSources ds acc else dedupSources ds (acc ++ [si])

/-- Python dict assignment on the session table: replace in place when the
key exists, append otherwise. -/
def storeSession : List (String × Session) → String → Session → List (String × Session)
  | [], sid, sess => [(sid, sess)]
  | (k, v) :: rest, sid, sess =>
      if k == sid then (sid, sess) :: rest else (k, v) :: storeSession rest sid sess

/-- Both chains record a successful turn by appending the human input and
the AI answer to the memory transcript (langchain `save_context`). -/
def appendTurn (sess : Session) (human ai : String) : Session :=
  { sess with memory := sess.memory.map (fun m =>
      { m with messages := m.messages ++
        [{ role := "humanmessage", content := human },
         { role := "aimessage", content := ai }] }) }

def emptySession (now : String) : Session :=
  { memory := none, created_at := now, message_count := 0, last_activity := none }

/-- The big degraded-mode answer returned when a quota exception is caught
in ask (chat.py lines 294-307). -/
def quotaExceededAnswer : String :=
  "🚫 **OpenAI API Quota Exceeded**\n\nI can process your documents perfectly (using local embeddings), but I need OpenAI API access to generate chat responses.\n\n**💡 Solutions:**\n1. **Add credits** to your OpenAI account at https://platform.openai.com/billing\n2. **Wait for quota reset** (if on monthly plan)  \n3. **Check your billing details** at https://platform.openai.com/settings/billing\n\n**📊 Current Status:**\n✅ Document processing: Working (local embeddings)\n❌ Chat responses: Blocked (needs OpenAI API)\n\nYour documents are ready - I just need API access to answer questions about them!"

def genericErrorAnswer : String :=
  "I encountered an error while processing your question. Please try again."

/-- The except handler of ask (chat.py lines 282-314). -/
def errorResultAsk (e : String) : PyDict :=
  if isQuotaErrorAsk e then
    [("success", V.b false),
     ("message", V.s "OpenAI API quota exceeded"),
     ("answer", V.s quotaExceededAnswer)]
  else
    [("success", V.b false),
     ("message", V.s ("Error processing question: " ++ e)),
     ("answer", V.s genericErrorAnswer)]

/-- Model of `ChatService.ask` (chat.py lines 120-314).  The whole body runs
inside try/except; the session creation and memory migration mutate `self`
before the model invocation, so those mutations persist when the invocation
raises and the handler result is returned. -/
def ask (s : ChatState) (question : String) (session_id : Option String) (env : AskEnv) : PyDict × ChatState :=
  let sid :=
    match session_id with
    | none => env.freshId
    | some i => if i == "" then env.freshId else i
  let s1 :=
    if (s.sessions.lookup sid).isNone then
      { s with sessions := s.sessions ++ [(sid, emptySession env.now)] }
    else s
  let sess := (s1.sessions.lookup sid).getD (emptySession env.now)
  match s.vector_store with
  | none =>
      let (sess1, nid) := ensureDirectMemory sess s1.nextCtorId
      match env.outcome with
      | Except.error e =>
          (errorResultAsk e,
           { s1 with sessions := storeSession s1.sessions sid sess1, nextCtorId := nid })
      | Except.ok resp =>
          let sess2 := appendTurn sess1 question resp.answer
          let sess3 :=
            { sess2 with message_count := sess2.message_count + 1,
                         last_activity := some env.now }
          ([("success", V.b true),
            ("answer", V.s resp.answer),
            ("sources", V.srcList []),
            ("session_id", V.s sid),
            ("message_count", V.n sess3.message_count),
            ("mode", V.s "direct_chat")],
           { s1 with sessions := storeSession s1.sessions sid sess3, nextCtorId := nid })
  | some _ =>
      let (sess1, nid) := ensureRagMemory sess s1.nextCtorId
      let enhanced := enhanceQuestion question
      match env.outcome with
      | Except.error e =>
          (errorResultAsk e,
           { s1 with sessions := storeSession s1.sessions sid sess1, nextCtorId := nid })
      | Except.ok resp =>
          let sources := dedupSources resp.source_documents []
          let sess2 := appendTurn sess1 enhanced resp.answer
          let sess3 :=
            { sess2 with message_count := sess2.message_count + 1,
                         last_activity := some env.now }
          ([("success", V.b true),
            ("answer", V.s resp.answer),
            ("sources", V.srcList sources),
            ("session_id", V.s sid),
            ("message_count", V.n sess3.message_count),
            ("mode", V.s "rag_chat")],
           { s1 with sessions := storeSession s1.sessions sid sess3, nextCtorId := nid })

/-- Model of `ChatService.get_sources` (chat.py lines 316-321). -/
def get_sources (s : ChatState) : PyDict :=
  [("documents", V.metaMap s.document_sources),
   ("total_documents", V.n s.document_sources.length),
   ("total_chunks", V.n s.documents.length)]

/-- Model of `ChatService.get_session_history` (chat.py lines 323-346). -/
def get_session_history (s : ChatState) (session_id : String) : PyDict :=
  match s.sessions.lookup session_id with
  | none => [("success", V.b false), ("message", V.s "Session not found")]
  | some sess =>
      let messages :=
        match sess.memory with
        | some m => m.messages
        | none => []
      [("success", V.b true),
       ("session_id", V.s session_id),
       ("created_at", V.s sess.created_at),
       ("message_count", V.n sess.message_count),
       ("messages", V.msgList messages)]

/-- Model of `ChatService.__init__` (chat.py lines 19-57). -/
def initState (e : InitEnv) : ChatState :=
  { embeddings := if e.openaiOk then EmbImpl.openai else pickLocalEmbeddings e.multilingualOk,
    embedding_type := if e.openaiOk then "openai" else "local",
    documents := [], vector_store := none, document_sources := [],
    sessions := [], nextCtorId := 0 }

/-- One public operation on the service. -/
inductive Op where
  | addDoc (text filename now : String) (env : RebuildEnv)
  | askQ (question : String) (session_id : Option String) (env : AskEnv)
  | getSources
  | getHistory (session_id : String)

/-- State transition of one public operation (the two read-only operations
leave the state unchanged). -/
def stepOp (s : ChatState) (op : Op) : ChatState :=
  match op with
  | Op.addDoc text filename now env => (add_document s text filename now env).2
  | Op.askQ q sid env => (ask s q sid env).2
  | Op.getSources => s
  | Op.getHistory _ => s

def runOps (s : ChatState) (ops : List Op) : ChatState := ops.foldl stepOp s

/-- The embedding implementation a RAG query embeds with: `as_retriever()`
similarity search uses the embedding object bound into the FAISS store when
it was built (chat.py lines 216-219 route retrieval through
`self.vector_store`). -/
def ragQueryEmbedder (s : ChatState) : Option EmbImpl := s.vector_store.map (fun vs => vs.emb)

/-- The corpus bookkeeping invariant: the flat chunk list is as long as the
per-document chunk counts claim together. -/
def sumChunks (l : List (String × DocMeta)) : Nat := (l.map (fun p => p.2.chunks)).sum

def corpusInv (s : ChatState) : Prop := s.documents.length = sumChunks s.document_sources

/-- Fatality condition for a rebuild environment: the first attempt raises
and either the signature is not a quota signature, or the local retry raises
as well (chat.py lines 355-383). -/
def rebuildFatalB (env : RebuildEnv) : Bool :=
  match env.firstAttempt with
  | Except.ok _ => false
  | Except.error e =>
      if isQuotaErrorRebuild e then
        match env.localAttempt with
        | Except.error _ => true
        | Except.ok _ => false
      else true

/-! ### Concrete scenario data for the witnesses and counterexamples -/

def stInit : ChatState := initState { openaiOk := true, multilingualOk := true }

def okRebuildEnv : RebuildEnv :=
  { firstAttempt := Except.ok (), multilingualOk := true, localAttempt := Except.ok () }

def fatalRebuildEnv : RebuildEnv :=
  { firstAttempt := Except.error "connection reset by peer", multilingualOk := true,
    localAttempt := Except.ok () }

def quotaFatalRebuildEnv : RebuildEnv :=
  { firstAttempt := Except.error "Error code: 429 - You exceeded your current quota",
    multilingualOk := true,
    localAttempt := Except.error "model download failed" }

def okAskEnv : AskEnv :=
  { freshId := "fresh-uuid-1", now := "2024-01-01T00:00:00",
    outcome := Except.ok { answer := "Hello there", source_documents := [] } }

def quotaAskEnv : AskEnv :=
  { freshId := "fresh-uuid-2", now := "2024-01-01T00:00:01",
    outcome := Except.error "Error code: 429 - insufficient_quota" }

def directShapedMemory : Memory :=
  { ctorId := 0, memory_key := "history", output_key := none, k := 5,
    messages := [{ role := "humanmessage", content := "hi" },
                 { role := "aimessage", content := "hello" }] }

def ragShapedMemory : Memory :=
  { ctorId := 0, memory_key := "chat_history", output_key := some "answer", k := 5,
    messages := [{ role := "humanmessage", content := "hi" },
                 { role := "aimessage", content := "hello" }] }

def directSession : Session :=
  { memory := some directShapedMemory, created_at := "2024-01-01T00:00:00",
    message_count := 2, last_activity := none }

def ragSession : Session :=
  { memory := some ragShapedMemory, created_at := "2024-01-01T00:00:00",
    message_count := 2, last_activity := none }

def c7State : ChatState :=
  { embeddings := EmbImpl.openai, embedding_type := "openai", documents := [],
    vector_store := none, document_sources := [], sessions := [("sid0", directSession)],
    nextCtorId := 1 }

/-- The operation trace of the C8 counterexample: a successful remote-built
ingestion followed by an ingestion whose quota fallback also fails. -/
def c8Trace : List Op :=
  [Op.addDoc "cats are mammals" "cats.txt" "t1" okRebuildEnv,
   Op.addDoc "dogs are mammals" "dogs.txt" "t2" quotaFatalRebuildEnv]

def c8State : ChatState := runOps stInit c8Trace

def localInit : ChatState := initState { openaiOk := false, multilingualOk := true }

/-! ### Helper lemmas -/

theorem lookup_append_none {β : Type} (l1 l2 : List (String × β)) (k : String)
    (h : l1.lookup k = none) : (l1 ++ l2).lookup k = l2.lookup k := by
  induction l1 with
  | nil => simp
  | cons p rest ih =>
      rcases p with ⟨k1, v1⟩
      by_cases hk : k = k1
      · subst hk
        simp [List.lookup] at h
      · have hbeq : (k == k1) = false := by simp [hk]
        simp only [List.cons_append, List.lookup, hbeq] at h ⊢
        exact ih h

theorem lookup_append_single {β : Type} (l1 : List (String × β)) (k : String) (v : β)
    (h : l1.lookup k = none) : (l1 ++ [(k, v)]).lookup k = some v := by
  rw [lookup_append_none l1 [(k, v)] k h]
  simp [List.lookup]

/-- The rebuild never touches the corpus fields or the session table. -/
theorem rebuild_preserves_corpus (s : ChatState) (env : RebuildEnv) :
    (rebuild_vector_store s env).2.documents = s.documents ∧
    (rebuild_vector_store s env).2.document_sources = s.document_sources ∧
    (rebuild_vector_store s env).2.sessions = s.sessions := by
  unfold rebuild_vector_store
  split
  · exact ⟨rfl, rfl, rfl⟩
  · split
    · exact ⟨rfl, rfl, rfl⟩
    · split
      · split
        · exact ⟨rfl, rfl, rfl⟩
        · exact ⟨rfl, rfl, rfl⟩
      · exact ⟨rfl, rfl, rfl⟩

/-- Ask never touches the corpus fields, the vector store, or the embedding
configuration. -/
theorem ask_preserves_corpus (s : ChatState) (q : String) (sid : Option String) (env : AskEnv) :
    (ask s q sid env).2.documents = s.documents ∧
    (ask s q sid env).2.document_sources = s.document_sources ∧
    (ask s q sid env).2.vector_store = s.vector_store ∧
    (ask s q sid env).2.embeddings = s.embeddings ∧
    (ask s q sid env).2.embedding_type = s.embedding_type := by
  unfold ask
  dsimp only
  repeat' split
  all_goals exact ⟨rfl, rfl, rfl, rfl, rfl⟩

theorem errorResultAsk_success (e : String) :
    (errorResultAsk e).lookup "success" = some (V.b false) := by
  unfold errorResultAsk
  split <;> simp [List.lookup]

theorem pickLocal_ne_openai (b : Bool) : pickLocalEmbeddings b ≠ EmbImpl.openai := by
  unfold pickLocalEmbeddings
  split <;> decide

/-- The duplicate branch of add_document (chat.py lines 66-72): a recorded
content hash short-circuits with a rejection dictionary and no mutation. -/
theorem add_document_duplicate (s : ChatState) (text fn now : String) (env : RebuildEnv)
    (m : DocMeta) (h : s.document_sources.lookup (md5hex text) = some m) :
    (add_document s text fn now env).1 =
      [("success", V.b false), ("message", V.s "Document already exists in knowledge base"),
       ("document_id", V.s (md5hex text))] ∧
    (add_document s text fn now env).2 = s := by
  unfold add_document
  dsimp only
  rw [h]
  exact ⟨rfl, rfl⟩

/-! ### Claim theorems -/

set_option maxRecDepth 200000

/-- C2 (code_bug): the spec requires add_document to reject empty and
whitespace-only text with an extraction-failure signal, but the code has no
such check.  On a fresh service, ingesting the empty string (and likewise a
whitespace-only string) is accepted with success = true, yields zero chunks,
appends no chunk documents, and records a zero-chunk metadata entry under
the hash of the empty text.  This theorem evaluates the model at those
failing inputs. -/
theorem C2_empty_text_accepted :
    ((add_document stInit "" "empty.txt" "t1" okRebuildEnv).1.lookup "success" =
        some (V.b true) ∧
     (add_document stInit "" "empty.txt" "t1" okRebuildEnv).1.lookup "chunks" =
        some (V.n 0) ∧
     (add_document stInit "" "empty.txt" "t1" okRebuildEnv).2.documents = [] ∧
     (add_document stInit "" "empty.txt" "t1" okRebuildEnv).2.document_sources =
        [("d41d8cd98f00b204e9800998ecf8427e", docMetaFor "" "empty.txt" "t1")]) ∧
    ((add_document stInit "   " "blank.txt" "t1" okRebuildEnv).1.lookup "success" =
        some (V.b true) ∧
     (add_document stInit "   " "blank.txt" "t1" okRebuildEnv).1.lookup "chunks" =
        some (V.n 0)) := by
  decide

/-- C1 counterexample: a fatal (non-quota) rebuild failure during ingestion
makes add_document return a failure result and leaves the published vector
index unchanged, but the chunk list and the per-document metadata map are
NOT in their prior state: the new chunks and the new metadata entry, both
appended before the rebuild was attempted, survive the caught exception.
This refutes the claim that all three are exactly as before the call. -/
theorem C1_counterexample :
    (add_document stInit "hello world" "a.txt" "t1" fatalRebuildEnv).1.lookup "success" =
      some (V.b false) ∧
    (add_document stInit "hello world" "a.txt" "t1" fatalRebuildEnv).2.vector_store =
      stInit.vector_store ∧
    (add_document stInit "hello world" "a.txt" "t1" fatalRebuildEnv).2.documents ≠
      stInit.documents ∧
    (add_document stInit "hello world" "a.txt" "t1" fatalRebuildEnv).2.document_sources ≠
      stInit.document_sources := by
  decide

/-- C7 counterexample: a session whose memory already has the DIRECT shape
(no output_key set), asked in DIRECT mode (no vector index), still gets its
memory object replaced by a freshly constructed one: the construction
probe `hasattr(memory, "output_key")` is true for every
ConversationBufferWindowMemory instance, so the DIRECT branch rebuilds the
memory on every call.  The construction id of the session memory changes
from 0 to 1, refuting the no-op claim. -/
theorem C7_counterexample :
    ((c7State.sessions.lookup "sid0").bind Session.memory).map Memory.output_key =
      some none ∧
    c7State.vector_store = none ∧
    ((c7State.sessions.lookup "sid0").bind Session.memory).map Memory.ctorId = some 0 ∧
    (ask c7State "hi" (some "sid0") okAskEnv).1.lookup "mode" = some (V.s "direct_chat") ∧
    (((ask c7State "hi" (some "sid0") okAskEnv).2.sessions.lookup "sid0").bind
        Session.memory).map Memory.ctorId = some 1 := by
  decide

/-- C8 counterexample: after an ingestion whose quota fallback itself fails,
the embedding tag has become local but the previously published remote-built
index stays current; the next ask runs the RAG branch, whose retrieval embeds
the query with the embedding object bound into that index at construction --
the remote provider.  So a remote attempt can happen after the tag became
local, refuting the claim for queries. -/
theorem C8_counterexample :
    c8State.embedding_type = "local" ∧
    ragQueryEmbedder c8State = some EmbImpl.openai ∧
    (ask c8State "what is a cat" none okAskEnv).1.lookup "mode" = some (V.s "rag_chat") := by
  decide

/-- C6 (confirmed): when the mode required for the current question differs
from the shape of the session memory, the migration step builds a new memory
object of the target shape whose message list is the prior transcript
verbatim (no messages dropped or reordered), and the migration leaves the
session message_count untouched.  Both directions are covered: a
non-RAG-shaped memory migrated by the RAG branch, and any memory migrated by
the DIRECT branch. -/
theorem C6_mode_switch_preserves_transcript (sess : Session) (nid : Nat) (m : Memory)
    (hm : sess.memory = some m) :
    (m.output_key ≠ some "answer" →
      (ensureRagMemory sess nid).1.memory = some
        { ctorId := nid, memory_key := "chat_history", output_key := some "answer", k := 5,
          messages := m.messages }) ∧
    (ensureRagMemory sess nid).1.message_count = sess.message_count ∧
    (ensureDirectMemory sess nid).1.memory = some
      { ctorId := nid, memory_key := "history", output_key := none, k := 5,
        messages := m.messages } ∧
    (ensureDirectMemory sess nid).1.message_count = sess.message_count := by
  refine ⟨fun h => ?_, ?_, ?_, ?_⟩
  · simp [ensureRagMemory, hm, memHasOutputKeyAttr, bne_iff_ne, h]
  · unfold ensureRagMemory
    dsimp only
    split <;> rfl
  · simp [ensureDirectMemory, hm, memHasOutputKeyAttr]
  · unfold ensureDirectMemory
    dsimp only
    split <;> rfl

/-- Witness for C6 at concrete sessions: a DIRECT-shaped session migrated to
the RAG shape and a RAG-shaped session migrated to the DIRECT shape, both
keeping the two-message transcript and the message count of 2. -/
theorem C6_witness :
    (ensureRagMemory directSession 7).1.memory = some
      { ctorId := 7, memory_key := "chat_history", output_key := some "answer", k := 5,
        messages := directShapedMemory.messages } ∧
    (ensureRagMemory directSession 7).1.message_count = directSession.message_count ∧
    (ensureDirectMemory ragSession 7).1.memory = some
      { ctorId := 7, memory_key := "history", output_key := none, k := 5,
        messages := ragShapedMemory.messages } ∧
    (ensureDirectMemory ragSession 7).1.message_count = ragSession.message_count :=
  ⟨(C6_mode_switch_preserves_transcript directSession 7 directShapedMemory rfl).1 (by decide),
   (C6_mode_switch_preserves_transcript directSession 7 directShapedMemory rfl).2.1,
   (C6_mode_switch_preserves_transcript ragSession 7 ragShapedMemory rfl).2.2.1,
   (C6_mode_switch_preserves_transcript ragSession 7 ragShapedMemory rfl).2.2.2⟩

/-- C7 amended: the memory-shape transition is idempotent only for the RAG
shape: a session whose memory already carries output_key "answer" is left
completely untouched by the RAG branch.  The DIRECT branch, in contrast,
reconstructs the session memory object on every call (the hasattr probe is
true for every memory instance), consuming a fresh object id, though the
new object carries the prior message list verbatim. -/
theorem C7_amended_idempotence (sess : Session) (nid : Nat) (m : Memory)
    (hm : sess.memory = some m) :
    (m.output_key = some "answer" → ensureRagMemory sess nid = (sess, nid)) ∧
    (ensureDirectMemory sess nid).2 = nid + 1 ∧
    (ensureDirectMemory sess nid).1.memory = some
      { ctorId := nid, memory_key := "history", output_key := none, k := 5,
        messages := m.messages } := by
  refine ⟨fun h => ?_, ?_, ?_⟩
  · simp [ensureRagMemory, hm, memHasOutputKeyAttr, h]
  · simp [ensureDirectMemory, hm, memHasOutputKeyAttr]
  · simp [ensureDirectMemory, hm, memHasOutputKeyAttr]

/-- Witness for the amended C7: the RAG transition is a strict no-op on a
RAG-shaped session, while the DIRECT transition on a DIRECT-shaped session
still consumes a fresh object id. -/
theorem C7_amended_witness :
    ensureRagMemory ragSession 9 = (ragSession, 9) ∧
    (ensureDirectMemory directSession 9).2 = 9 + 1 :=
  ⟨(C7_amended_idempotence ragSession 9 ragShapedMemory rfl).1 rfl,
   (C7_amended_idempotence directSession 9 directShapedMemory rfl).2.1⟩

/-- C5 (confirmed): when no vector index exists, a successful ask reports
mode direct_chat with an empty sources list (and success true); the DIRECT
branch performs no retrieval, so the sources field is the literal empty
list. -/
theorem C5_direct_mode_empty_sources (s : ChatState) (q : String) (sid : Option String)
    (env : AskEnv) (resp : LLMResponse)
    (hv : s.vector_store = none) (ho : env.outcome = Except.ok resp) :
    (ask s q sid env).1.lookup "success" = some (V.b true) ∧
    (ask s q sid env).1.lookup "mode" = some (V.s "direct_chat") ∧
    (ask s q sid env).1.lookup "sources" = some (V.srcList []) := by
  unfold ask
  dsimp only
  rw [hv, ho]
  simp [List.lookup]

/-- Witness for C5: a fresh service asked without a session id. -/
theorem C5_witness :
    (ask stInit "Hello" none okAskEnv).1.lookup "success" = some (V.b true) ∧
    (ask stInit "Hello" none okAskEnv).1.lookup "mode" = some (V.s "direct_chat") ∧
    (ask stInit "Hello" none okAskEnv).1.lookup "sources" = some (V.srcList []) :=
  C5_direct_mode_empty_sources stInit "Hello" none okAskEnv
    { answer := "Hello there", source_documents := [] } rfl rfl

/-- C9 (confirmed): an exception raised during model invocation inside ask
is caught; a quota-signature message (quota, 429, or insufficient_quota)
produces success = false with the fixed degraded-mode answer saying document
processing still works while chat is blocked and the message "OpenAI API
quota exceeded"; any other signature produces success = false with the
generic answer and a message carrying the exception text. -/
theorem C9_model_invocation_failure (s : ChatState) (q : String) (sid : Option String)
    (env : AskEnv) (e : String) (ho : env.outcome = Except.error e) :
    (ask s q sid env).1 = errorResultAsk e ∧
    (isQuotaErrorAsk e = true →
      (ask s q sid env).1 =
        [("success", V.b false), ("message", V.s "OpenAI API quota exceeded"),
         ("answer", V.s quotaExceededAnswer)]) ∧
    (isQuotaErrorAsk e = false →
      (ask s q sid env).1 =
        [("success", V.b false), ("message", V.s ("Error processing question: " ++ e)),
         ("answer", V.s genericErrorAnswer)]) := by
  have h1 : (ask s q sid env).1 = errorResultAsk e := by
    unfold ask
    dsimp only
    rw [ho]
    split <;> rfl
  refine ⟨h1, fun hq => ?_, fun hq => ?_⟩ <;> rw [h1] <;> simp [errorResultAsk, hq]

/-- Witness for C9: a 429 insufficient_quota exception on a fresh service
yields the degraded-mode quota dictionary. -/
theorem C9_witness :
    (ask stInit "hello" none quotaAskEnv).1 =
      [("success", V.b false), ("message", V.s "OpenAI API quota exceeded"),
       ("answer", V.s quotaExceededAnswer)] :=
  (C9_model_invocation_failure stInit "hello" none quotaAskEnv
    "Error code: 429 - insufficient_quota" rfl).2.1 (by decide)

/-- C3 (confirmed): for every state, question, optional session id and
environment, ask returns a structured dictionary carrying a boolean success
flag, and likewise add_document for every text, filename and rebuild
environment: every branch of both methods, including the exception
handlers, ends in a result dictionary rather than a propagated exception. -/
theorem C3_no_exception_escapes (s : ChatState) (q : String) (sid : Option String)
    (env : AskEnv) (text filename now : String) (renv : RebuildEnv) :
    (∃ b, (ask s q sid env).1.lookup "success" = some (V.b b)) ∧
    (∃ b, (add_document s text filename now renv).1.lookup "success" = some (V.b b)) := by
  constructor
  · unfold ask
    dsimp only
    repeat' split
    all_goals
      first
        | exact ⟨false, errorResultAsk_success _⟩
        | exact ⟨true, rfl⟩
  · unfold add_document
    dsimp only
    repeat' split
    all_goals
      first
        | exact ⟨true, rfl⟩
        | exact ⟨false, rfl⟩

/-- An accepted ingestion implies the text was new, the result carries its
hash as document_id, and the new metadata entry was appended. -/
theorem add_document_success_shape (s : ChatState) (text fn now : String) (env : RebuildEnv)
    (hacc : (add_document s text fn now env).1.lookup "success" = some (V.b true)) :
    s.document_sources.lookup (md5hex text) = none ∧
    (add_document s text fn now env).1.lookup "document_id" = some (V.s (md5hex text)) ∧
    (add_document s text fn now env).2.document_sources =
      s.document_sources ++ [(md5hex text, docMetaFor text fn now)] := by
  revert hacc
  unfold add_document
  dsimp only
  cases hl : List.lookup (md5hex text) s.document_sources with
  | some m =>
      intro hacc
      simp [List.lookup] at hacc
  | none =>
      rcases hr : rebuild_vector_store
          { s with documents := s.documents ++ chunkDocsFor text fn now,
                   document_sources := s.document_sources ++ [(md5hex text, docMetaFor text fn now)] }
          env with ⟨oe, s2⟩
      cases oe with
      | none =>
          intro _
          have h2 := (rebuild_preserves_corpus
            { s with documents := s.documents ++ chunkDocsFor text fn now,
                     document_sources := s.document_sources ++ [(md5hex text, docMetaFor text fn now)] }
            env).2.1
          rw [hr] at h2
          exact ⟨rfl, rfl, h2⟩
      | some e =>
          intro hacc
          simp [List.lookup] at hacc

/-- C4 (confirmed): once a byte-identical text has been accepted, a second
add_document with the same text is rejected with success = false, reports
the same document_id (the content hash), and mutates nothing: the state
after the second call is the state after the first, so the get_sources
snapshot (total_chunks and total_documents included) is unchanged. -/
theorem C4_duplicate_ingestion_rejected (s : ChatState) (text fn1 now1 : String)
    (env1 : RebuildEnv) (fn2 now2 : String) (env2 : RebuildEnv)
    (hacc : (add_document s text fn1 now1 env1).1.lookup "success" = some (V.b true)) :
    (add_document (add_document s text fn1 now1 env1).2 text fn2 now2 env2).1.lookup "success" =
      some (V.b false) ∧
    (add_document (add_document s text fn1 now1 env1).2 text fn2 now2 env2).1.lookup "document_id" =
      some (V.s (md5hex text)) ∧
    (add_document s text fn1 now1 env1).1.lookup "document_id" = some (V.s (md5hex text)) ∧
    (add_document (add_document s text fn1 now1 env1).2 text fn2 now2 env2).2 =
      (add_document s text fn1 now1 env1).2 ∧
    get_sources (add_document (add_document s text fn1 now1 env1).2 text fn2 now2 env2).2 =
      get_sources (add_document s text fn1 now1 env1).2 := by
  obtain ⟨hl, hid, hsrc⟩ := add_document_success_shape s text fn1 now1 env1 hacc
  have hkey : (add_document s text fn1 now1 env1).2.document_sources.lookup (md5hex text) =
      some (docMetaFor text fn1 now1) := by
    rw [hsrc]
    exact lookup_append_single _ _ _ hl
  obtain ⟨hdict, hstate⟩ := add_document_duplicate (add_document s text fn1 now1 env1).2
    text fn2 now2 env2 (docMetaFor text fn1 now1) hkey
  refine ⟨?_, ?_, hid, hstate, by rw [hstate]⟩
  · rw [hdict]
    rfl
  · rw [hdict]
    rfl

/-- Witness for C4: ingesting "hello world" twice on a fresh service. -/
theorem C4_witness :
    (add_document (add_document stInit "hello world" "a.txt" "t1" okRebuildEnv).2
        "hello world" "b.txt" "t2" okRebuildEnv).1.lookup "success" = some (V.b false) ∧
    (add_document (add_document stInit "hello world" "a.txt" "t1" okRebuildEnv).2
        "hello world" "b.txt" "t2" okRebuildEnv).1.lookup "document_id" =
      some (V.s (md5hex "hello world")) ∧
    (add_document stInit "hello world" "a.txt" "t1" okRebuildEnv).1.lookup "document_id" =
      some (V.s (md5hex "hello world")) ∧
    (add_document (add_document stInit "hello world" "a.txt" "t1" okRebuildEnv).2
        "hello world" "b.txt" "t2" okRebuildEnv).2 =
      (add_document stInit "hello world" "a.txt" "t1" okRebuildEnv).2 ∧
    get_sources (add_document (add_document stInit "hello world" "a.txt" "t1" okRebuildEnv).2
        "hello world" "b.txt" "t2" okRebuildEnv).2 =
      get_sources (add_document stInit "hello world" "a.txt" "t1" okRebuildEnv).2 :=
  C4_duplicate_ingestion_rejected stInit "hello world" "a.txt" "t1" okRebuildEnv
    "b.txt" "t2" okRebuildEnv (by decide)

/-- C1 amended: when the rebuild during a non-duplicate ingestion fails
fatally (a non-quota error, or a quota-signature error whose local retry
also fails), add_document returns a failure result and the published vector
index is exactly as it was before the call; the chunk list and the
per-document metadata map, however, retain the entries appended before the
rebuild was attempted (they are the prior lists extended by the new chunks
and the new metadata entry). -/
theorem C1_amended_fatal_rebuild (s : ChatState) (text filename now : String)
    (env : RebuildEnv)
    (hdup : s.document_sources.lookup (md5hex text) = none)
    (hfatal : rebuildFatalB env = true)
    (hne : s.documents ++ chunkDocsFor text filename now ≠ []) :
    (add_document s text filename now env).1.lookup "success" = some (V.b false) ∧
    (add_document s text filename now env).2.vector_store = s.vector_store ∧
    (add_document s text filename now env).2.documents =
      s.documents ++ chunkDocsFor text filename now ∧
    (add_document s text filename now env).2.document_sources =
      s.document_sources ++ [(md5hex text, docMetaFor text filename now)] := by
  unfold add_document
  dsimp only
  rw [hdup]
  unfold rebuild_vector_store
  dsimp only
  have hne2 : (s.documents ++ chunkDocsFor text filename now).isEmpty = false := by
    cases h : (s.documents ++ chunkDocsFor text filename now).isEmpty
    · rfl
    · exact absurd (List.isEmpty_iff.mp h) hne
  rw [hne2]
  unfold rebuildFatalB at hfatal
  cases hfst : env.firstAttempt with
  | ok u =>
      rw [hfst] at hfatal
      simp at hfatal
  | error e1 =>
      rw [hfst] at hfatal
      dsimp only at hfatal ⊢
      split at hfatal
      · rename_i hq
        rw [if_pos hq]
        cases hla : env.localAttempt with
        | ok u =>
            rw [hla] at hfatal
            simp at hfatal
        | error e2 =>
            exact ⟨rfl, rfl, rfl, rfl⟩
      · rename_i hq
        rw [if_neg hq]
        exact ⟨rfl, rfl, rfl, rfl⟩

/-- Witness for the amended C1: a non-quota rebuild failure while ingesting
"hello world" on a fresh service. -/
theorem C1_amended_witness :
    (add_document stInit "hello world" "a.txt" "t1" fatalRebuildEnv).1.lookup "success" =
      some (V.b false) ∧
    (add_document stInit "hello world" "a.txt" "t1" fatalRebuildEnv).2.vector_store =
      stInit.vector_store ∧
    (add_document stInit "hello world" "a.txt" "t1" fatalRebuildEnv).2.documents =
      stInit.documents ++ chunkDocsFor "hello world" "a.txt" "t1" ∧
    (add_document stInit "hello world" "a.txt" "t1" fatalRebuildEnv).2.document_sources =
      stInit.document_sources ++ [(md5hex "hello world", docMetaFor "hello world" "a.txt" "t1")] :=
  C1_amended_fatal_rebuild stInit "hello world" "a.txt" "t1" fatalRebuildEnv rfl
    (by decide) (by decide)

/-- The rebuild keeps a local tag local, never installs the remote
implementation again, and any index it publishes from a local-tagged state
is built with a non-remote implementation. -/
theorem rebuild_sticky (s : ChatState) (env : RebuildEnv)
    (h1 : s.embedding_type = "local") (h2 : s.embeddings ≠ EmbImpl.openai) :
    (rebuild_vector_store s env).2.embedding_type = "local" ∧
    (rebuild_vector_store s env).2.embeddings ≠ EmbImpl.openai ∧
    ((rebuild_vector_store s env).2.vector_store = s.vector_store ∨
      ∃ vs, (rebuild_vector_store s env).2.vector_store = some vs ∧ vs.emb ≠ EmbImpl.openai) := by
  unfold rebuild_vector_store
  split
  · exact ⟨h1, h2, Or.inl rfl⟩
  · split
    · exact ⟨h1, h2, Or.inr ⟨_, rfl, h2⟩⟩
    · split
      · split
        · exact ⟨rfl, pickLocal_ne_openai _, Or.inr ⟨_, rfl, pickLocal_ne_openai _⟩⟩
        · exact ⟨rfl, pickLocal_ne_openai _, Or.inl rfl⟩
      · exact ⟨h1, h2, Or.inl rfl⟩

/-- One public operation from a local-tagged state keeps the tag local, the
implementation non-remote, and publishes only non-remote-built indexes. -/
theorem step_sticky (s : ChatState) (op : Op)
    (h1 : s.embedding_type = "local") (h2 : s.embeddings ≠ EmbImpl.openai) :
    (stepOp s op).embedding_type = "local" ∧
    (stepOp s op).embeddings ≠ EmbImpl.openai ∧
    ((stepOp s op).vector_store = s.vector_store ∨
      ∃ vs, (stepOp s op).vector_store = some vs ∧ vs.emb ≠ EmbImpl.openai) := by
  cases op with
  | addDoc t f n env =>
      show (add_document s t f n env).2.embedding_type = "local" ∧
        (add_document s t f n env).2.embeddings ≠ EmbImpl.openai ∧
        ((add_document s t f n env).2.vector_store = s.vector_store ∨
          ∃ vs, (add_document s t f n env).2.vector_store = some vs ∧ vs.emb ≠ EmbImpl.openai)
      unfold add_document
      dsimp only
      cases hl : List.lookup (md5hex t) s.document_sources with
      | some m => exact ⟨h1, h2, Or.inl rfl⟩
      | none =>
          rcases hr : rebuild_vector_store
              { s with documents := s.documents ++ chunkDocsFor t f n,
                       document_sources := s.document_sources ++ [(md5hex t, docMetaFor t f n)] }
              env with ⟨oe, s2⟩
          have hre := rebuild_sticky
            { s with documents := s.documents ++ chunkDocsFor t f n,
                     document_sources := s.document_sources ++ [(md5hex t, docMetaFor t f n)] }
            env h1 h2
          rw [hr] at hre
          cases oe with
          | none => exact hre
          | some e => exact hre
  | askQ q sid env =>
      have hp := ask_preserves_corpus s q sid env
      show (ask s q sid env).2.embedding_type = "local" ∧
        (ask s q sid env).2.embeddings ≠ EmbImpl.openai ∧
        ((ask s q sid env).2.vector_store = s.vector_store ∨
          ∃ vs, (ask s q sid env).2.vector_store = some vs ∧ vs.emb ≠ EmbImpl.openai)
      rw [hp.2.2.1, hp.2.2.2.1, hp.2.2.2.2]
      exact ⟨h1, h2, Or.inl rfl⟩
  | getSources => exact ⟨h1, h2, Or.inl rfl⟩
  | getHistory sid => exact ⟨h1, h2, Or.inl rfl⟩

/-- C8 amended: once the embedding tag is local (with a non-remote active
implementation, as in every reachable local-tagged state), no sequence of
public operations ever sets the tag back to remote or installs the remote
implementation again, and every vector index published after that point is
built with a non-remote implementation.  (A RAG query can still reach the
remote provider through the one index published before the switch, kept
current when the local-fallback rebuild itself failed -- the
counterexample.) -/
theorem C8_amended_sticky_fallback (s : ChatState) (ops : List Op)
    (h1 : s.embedding_type = "local") (h2 : s.embeddings ≠ EmbImpl.openai) :
    (runOps s ops).embedding_type = "local" ∧
    (runOps s ops).embeddings ≠ EmbImpl.openai ∧
    ((runOps s ops).vector_store = s.vector_store ∨
      ∃ vs, (runOps s ops).vector_store = some vs ∧ vs.emb ≠ EmbImpl.openai) := by
  induction ops generalizing s with
  | nil => exact ⟨h1, h2, Or.inl rfl⟩
  | cons op rest ih =>
      have hs := step_sticky s op h1 h2
      have hrest := ih (stepOp s op) hs.1 hs.2.1
      have hrun : runOps s (op :: rest) = runOps (stepOp s op) rest := rfl
      rw [hrun]
      refine ⟨hrest.1, hrest.2.1, ?_⟩
      rcases hrest.2.2 with heq | ⟨vs, hvs, hne⟩
      · rw [heq]
        exact hs.2.2
      · exact Or.inr ⟨vs, hvs, hne⟩

/-- Witness for the amended C8: a service that started on local embeddings
ingests a document; the tag stays local, the implementation stays
non-remote, and the published index is local-built. -/
theorem C8_amended_witness :
    (runOps localInit [Op.addDoc "cats are mammals" "c.txt" "t1" okRebuildEnv]).embedding_type =
      "local" ∧
    (runOps localInit [Op.addDoc "cats are mammals" "c.txt" "t1" okRebuildEnv]).embeddings ≠
      EmbImpl.openai ∧
    ((runOps localInit [Op.addDoc "cats are mammals" "c.txt" "t1" okRebuildEnv]).vector_store =
        localInit.vector_store ∨
      ∃ vs, (runOps localInit [Op.addDoc "cats are mammals" "c.txt" "t1" okRebuildEnv]).vector_store =
          some vs ∧ vs.emb ≠ EmbImpl.openai) :=
  C8_amended_sticky_fallback localInit [Op.addDoc "cats are mammals" "c.txt" "t1" okRebuildEnv]
    rfl (by decide)

theorem chunkDocsFor_length (text fn now : String) :
    (chunkDocsFor text fn now).length = (splitText text).length := by
  unfold chunkDocsFor
  rw [List.length_map, List.enum_length]

theorem sumChunks_append_single (l : List (String × DocMeta)) (k : String) (m : DocMeta) :
    sumChunks (l ++ [(k, m)]) = sumChunks l + m.chunks := by
  unfold sumChunks
  rw [List.map_append, List.sum_append]
  rfl

/-- Ingestion preserves the corpus bookkeeping invariant: the accepted
branch appends exactly as many chunk documents as the chunk count it
records, and the rebuild (even a failing one) touches neither list. -/
theorem add_preserves_inv (s : ChatState) (t f n : String) (env : RebuildEnv)
    (h : corpusInv s) : corpusInv (add_document s t f n env).2 := by
  unfold add_document
  dsimp only
  cases hl : List.lookup (md5hex t) s.document_sources with
  | some m => exact h
  | none =>
      rcases hr : rebuild_vector_store
          { s with documents := s.documents ++ chunkDocsFor t f n,
                   document_sources := s.document_sources ++ [(md5hex t, docMetaFor t f n)] }
          env with ⟨oe, s2⟩
      have hp := rebuild_preserves_corpus
        { s with documents := s.documents ++ chunkDocsFor t f n,
                 document_sources := s.document_sources ++ [(md5hex t, docMetaFor t f n)] }
        env
      rw [hr] at hp
      have hinv2 : corpusInv s2 := by
        unfold corpusInv
        rw [hp.1, hp.2.1]
        dsimp only
        rw [List.length_append, chunkDocsFor_length, sumChunks_append_single]
        unfold corpusInv at h
        rw [h]
        rfl
      cases oe with
      | none => exact hinv2
      | some e => exact hinv2

theorem step_preserves_inv (s : ChatState) (op : Op) (h : corpusInv s) :
    corpusInv (stepOp s op) := by
  cases op with
  | addDoc t f n env => exact add_preserves_inv s t f n env h
  | askQ q sid env =>
      have hp := ask_preserves_corpus s q sid env
      show corpusInv (ask s q sid env).2
      unfold corpusInv at h ⊢
      rw [hp.1, hp.2.1]
      exact h
  | getSources => exact h
  | getHistory sid => exact h

theorem runOps_preserves_inv (s : ChatState) (ops : List Op) (h : corpusInv s) :
    corpusInv (runOps s ops) := by
  induction ops generalizing s with
  | nil => exact h
  | cons op rest ih => exact ih (stepOp s op) (step_preserves_inv s op h)

/-- C10 (confirmed): in every state reachable from a fresh service by public
operations, the get_sources snapshot is internally consistent:
total_documents is the number of metadata entries, and total_chunks (the
length of the flat chunk list) equals the sum of the per-document chunk
counts recorded in those entries; every public operation preserves this. -/
theorem C10_sources_snapshot_consistent (e : InitEnv) (ops : List Op) :
    (get_sources (runOps (initState e) ops)).lookup "total_documents" =
      some (V.n (runOps (initState e) ops).document_sources.length) ∧
    (get_sources (runOps (initState e) ops)).lookup "total_chunks" =
      some (V.n (sumChunks (runOps (initState e) ops).document_sources)) ∧
    (runOps (initState e) ops).documents.length =
      sumChunks (runOps (initState e) ops).document_sources := by
  have hinv := runOps_preserves_inv (initState e) ops rfl
  refine ⟨rfl, ?_, hinv⟩
  rw [← hinv]
  rfl

end ChainChat
